import Mathlib

/-!
Verification of the Themis passphrase-mode Secure Cell Seal
(src/themis/secure_cell_seal_passphrase.c) against its specification.

The pipelines `themis_auth_sym_encrypt_message_with_passphrase_`,
`themis_auth_sym_encrypt_message_with_passphrase`,
`themis_auth_sym_decrypt_message_with_passphrase_` and
`themis_auth_sym_decrypt_message_with_passphrase` are translated
line by line from the C source.  External collaborators (the CSPRNG
`soter_rand`, the KDF `soter_pbkdf2_sha256`, and the plain AEAD
`themis_auth_sym_plain_encrypt` / `themis_auth_sym_plain_decrypt`) are
modelled as an environment of oracle functions; an oracle returning
`none` stands for the external call failing (modelled as the generic
failure status).  Each pipeline result additionally records, as
observable instrumentation of the C control flow:
* `trace`  - the sequence of external primitive invocations performed;
* `wiped`  - whether the return path passed through the `soter_wipe`
  block (the `error:` label);
* the final contents of the transient secret stack buffers.

Byte strings are `List Nat` (each entry a byte value below 256 in C;
the parsers operate on arbitrary lists, which only widens the
adversarial token space).  Machine 32-bit fields are `Nat` reduced
mod 2^32 where the C code truncates.
-/

namespace Themis

/-- Themis status codes relevant to this file.  The spec lists five:
success, invalid-parameter, buffer-too-small, corrupted-token (the
status structural parse failures produce) and generic-failure
(`THEMIS_FAIL`). -/
inductive ThemisStatus where
  | success
  | fail
  | invalidParameter
  | bufferTooSmall
  | corruptedToken
  deriving DecidableEq, Repr

/-- External primitive invocations recorded by the pipeline models. -/
inductive ExtCall where
  | rand
  | kdf
  | aeadEnc
  | aeadDec
  deriving DecidableEq, Repr

/-- Oracles for the external collaborators (out of scope per the spec):
CSPRNG, PBKDF2-HMAC-SHA256, and the plain AEAD in both directions.
`rand n` draws `n` fresh bytes; `pbkdf2 passphrase salt iter keyLen`
derives a key; `aeadEnc alg key iv aad msg` returns (ciphertext, tag);
`aeadDec alg key iv aad ct tag` returns the plaintext. -/
structure Env where
  rand : Nat → Option (List Nat)
  pbkdf2 : List Nat → List Nat → Nat → Nat → Option (List Nat)
  aeadEnc : Nat → List Nat → List Nat → List Nat → List Nat → Option (List Nat × List Nat)
  aeadDec : Nat → List Nat → List Nat → List Nat → List Nat → List Nat → Option (List Nat)

def SOTER_SYM_KEY_LENGTH_MASK : Nat := 0xFFF

def SOTER_SYM_PADDING_MASK : Nat := 0xF0000

def SOTER_SYM_KDF_MASK : Nat := 0xF000000

def SOTER_SYM_ALG_MASK : Nat := 0xF0000000

def SOTER_SYM_NOKDF : Nat := 0

def SOTER_SYM_PBKDF2 : Nat := 0x1000000

def SOTER_SYM_AES_GCM : Nat := 0x40010000

def SOTER_SYM_256_KEY_LENGTH : Nat := 256

def SOTER_SYM_192_KEY_LENGTH : Nat := 192

def SOTER_SYM_128_KEY_LENGTH : Nat := 128

/-- Modelled from the spec: fixed parameters for new tokens (values of
the library constants; IV and tag length per the AEAD (AES-GCM), salt
length and iteration count per library constants). -/
def THEMIS_AUTH_SYM_IV_LENGTH : Nat := 12

def THEMIS_AUTH_SYM_AUTH_TAG_LENGTH : Nat := 16

def THEMIS_AUTH_SYM_PBKDF2_SALT_LENGTH : Nat := 16

def THEMIS_AUTH_SYM_KEY_LENGTH : Nat := 256

def THEMIS_AUTH_SYM_MAX_KEY_LENGTH : Nat := 256

def THEMIS_AUTH_SYM_PBKDF2_ITERATIONS : Nat := 200000

/-- Modelled from the spec: the default passphrase algorithm identifier,
AES-256-GCM with KDF = PBKDF2 and no padding. -/
def THEMIS_AUTH_SYM_PASSPHRASE_ALG : Nat :=
  SOTER_SYM_AES_GCM ||| SOTER_SYM_PBKDF2 ||| SOTER_SYM_256_KEY_LENGTH

def UINT32_MAX : Nat := 4294967295

/-- Bitwise complement within a 32-bit word. -/
def not32 (x : Nat) : Nat := UINT32_MAX ^^^ x

/-- `soter_alg_without_kdf` from the source: clear the KDF-selector
bits, then set the "no KDF" selector. -/
def soter_alg_without_kdf (alg : Nat) : Nat :=
  (alg &&& not32 SOTER_SYM_KDF_MASK) ||| SOTER_SYM_NOKDF

/-- `soter_alg_key_length` from the source: key-length field, in bytes. -/
def soter_alg_key_length (alg : Nat) : Nat :=
  (alg &&& SOTER_SYM_KEY_LENGTH_MASK) / 8

/-- `soter_alg_reserved_bits_valid` from the source: no bits outside the
four recognized fields. -/
def soter_alg_reserved_bits_valid (alg : Nat) : Bool :=
  alg &&& not32 (SOTER_SYM_KEY_LENGTH_MASK ||| SOTER_SYM_PADDING_MASK |||
      SOTER_SYM_KDF_MASK ||| SOTER_SYM_ALG_MASK) == 0

/-- Little-endian serialization of a 32-bit value. -/
def u32le (x : Nat) : List Nat :=
  [x % 256, x / 256 % 256, x / 65536 % 256, x / 16777216 % 256]

/-- Read a little-endian 32-bit value at byte offset `off` (0 when the
buffer is too short; callers check lengths first, as the C code does). -/
def readU32At (buf : List Nat) (off : Nat) : Nat :=
  match buf.drop off with
  | b0 :: b1 :: b2 :: b3 :: _ => b0 + b1 * 256 + b2 * 65536 + b3 * 16777216
  | _ => 0

/-- Writing `bs` into a zero-initialized buffer of `n` bytes: the C
external primitives fill the whole buffer on success, so with
well-behaved collaborators this is `bs` itself. -/
def bufWrite (n : Nat) (bs : List Nat) : List Nat :=
  bs.take n ++ List.replicate (n - bs.length) 0

/-- Wiping a stack buffer (`soter_wipe`): all bytes become zero. -/
def wipeBuf (b : List Nat) : List Nat := List.replicate b.length 0

/-- Parsed passphrase auth-token header
(`struct themis_scell_auth_token_passphrase`).  The IV, tag and KDF
context alias into the token buffer in C; here they are the
corresponding sub-lists. -/
structure AuthTokenPassphrase where
  alg : Nat
  iv : List Nat
  authTag : List Nat
  messageLength : Nat
  kdfContext : List Nat
  deriving DecidableEq, Repr

/-- Parsed PBKDF2 context (`struct themis_scell_pbkdf2_context`). -/
structure Pbkdf2Context where
  iterationCount : Nat
  salt : List Nat
  deriving DecidableEq, Repr

def themis_scell_auth_token_passphrase_min_size : Nat := 20

def themis_scell_pbkdf2_context_min_size : Nat := 8

/-- Serialized size of a PBKDF2 context: iteration count, salt length,
salt bytes. -/
def themis_scell_pbkdf2_context_size (saltLength : Nat) : Nat :=
  themis_scell_pbkdf2_context_min_size + saltLength

/-- Exact serialized size of a passphrase auth token: the 20-byte fixed
envelope followed by IV, tag and KDF context. -/
def themis_scell_auth_token_passphrase_size (h : AuthTokenPassphrase) : Nat :=
  themis_scell_auth_token_passphrase_min_size +
    h.iv.length + h.authTag.length + h.kdfContext.length

/-- Modelled from the spec: full parse of a passphrase auth token
(`themis_read_scell_auth_token_passphrase`).  Envelope fields are
little-endian u32 at offsets 0/4/8/12/16; the total size must equal
the envelope plus the three declared variable-field lengths exactly
(malformed framing yields the corrupted-token status at use sites). -/
def themis_read_scell_auth_token_passphrase (buf : List Nat) :
    Option AuthTokenPassphrase :=
  if buf.length < themis_scell_auth_token_passphrase_min_size then none
  else
    let ivL := readU32At buf 4
    let tagL := readU32At buf 8
    let kdfL := readU32At buf 16
    if buf.length = themis_scell_auth_token_passphrase_min_size + ivL + tagL + kdfL then
      some { alg := readU32At buf 0
             iv := (buf.drop 20).take ivL
             authTag := (buf.drop (20 + ivL)).take tagL
             messageLength := readU32At buf 12
             kdfContext := buf.drop (20 + ivL + tagL) }
    else none

/-- Modelled from the spec: shallow parse returning only the declared
message length (`themis_scell_auth_token_message_size`), used for
sizing probes without validating the whole token. -/
def themis_scell_auth_token_message_size (buf : List Nat) : Option Nat :=
  if buf.length < themis_scell_auth_token_passphrase_min_size then none
  else some (readU32At buf 12)

/-- Modelled from the spec: parse the PBKDF2 context out of the token's
reserved slot (`themis_read_scell_pbkdf2_context`); fails when the
declared size is inconsistent with the available bytes. -/
def themis_read_scell_pbkdf2_context (bytes : List Nat) :
    Option Pbkdf2Context :=
  if bytes.length < themis_scell_pbkdf2_context_min_size then none
  else
    let saltL := readU32At bytes 4
    if bytes.length = themis_scell_pbkdf2_context_min_size + saltL then
      some { iterationCount := readU32At bytes 0, salt := bytes.drop 8 }
    else none

/-- Serialized PBKDF2 context bytes written into the token's reserved
slot (`themis_write_scell_pbkdf2_context`). -/
def pbkdf2ContextBytes (iterationCount : Nat) (salt : List Nat) : List Nat :=
  u32le iterationCount ++ u32le salt.length ++ salt

/-- Serialized token produced by the two write passes
(`themis_write_scell_auth_token_passphrase` followed by
`themis_write_scell_pbkdf2_context`): envelope, IV, tag, KDF context. -/
def authTokenBytes (alg : Nat) (iv tag : List Nat) (messageLength : Nat)
    (kdfBytes : List Nat) : List Nat :=
  u32le alg ++ u32le iv.length ++ u32le tag.length ++ u32le messageLength ++
    u32le kdfBytes.length ++ iv ++ tag ++ kdfBytes

/-- Modelled from the spec: `DEFAULT_AUTH_TOKEN_SIZE`, the conservative
probe answer for encrypt. -/
def DEFAULT_AUTH_TOKEN_SIZE : Nat :=
  themis_scell_auth_token_passphrase_min_size + THEMIS_AUTH_SYM_IV_LENGTH +
    THEMIS_AUTH_SYM_AUTH_TAG_LENGTH + themis_scell_pbkdf2_context_min_size +
    THEMIS_AUTH_SYM_PBKDF2_SALT_LENGTH

/-- Result of the encrypt pipeline: status, the two outputs with their
out-length values, the final contents of the four transient secret
stack buffers, whether the wipe block ran, and the external-call trace. -/
structure EncryptResult where
  status : ThemisStatus
  authToken : Option (List Nat)
  authTokenLength : Nat
  encryptedMessage : Option (List Nat)
  encryptedMessageLength : Nat
  ivFinal : List Nat
  saltFinal : List Nat
  tagFinal : List Nat
  keyFinal : List Nat
  wiped : Bool
  trace : List ExtCall
  deriving DecidableEq, Repr

/-- Inner encrypt pipeline
(`themis_auth_sym_encrypt_message_with_passphrase_`), translated from
the C source.  `authTokenCap` and `encryptedMessageCap` are the values
behind `auth_token_length` / `encrypted_message_length` on entry. -/
def themis_auth_sym_encrypt_message_with_passphrase_ (env : Env)
    (passphrase message userContext : List Nat)
    (authTokenCap encryptedMessageCap : Nat) : EncryptResult :=
  -- stack buffers iv, salt, auth_tag, derived_key are zero-initialized
  if message.length > UINT32_MAX then
    -- early return before the wipe block; buffers still zero-initialized
    { status := .invalidParameter
      authToken := none, authTokenLength := authTokenCap
      encryptedMessage := none, encryptedMessageLength := encryptedMessageCap
      ivFinal := List.replicate THEMIS_AUTH_SYM_IV_LENGTH 0
      saltFinal := List.replicate THEMIS_AUTH_SYM_PBKDF2_SALT_LENGTH 0
      tagFinal := List.replicate THEMIS_AUTH_SYM_AUTH_TAG_LENGTH 0
      keyFinal := List.replicate (THEMIS_AUTH_SYM_KEY_LENGTH / 8) 0
      wiped := false, trace := [] }
  else
    let hdrAlg := THEMIS_AUTH_SYM_PASSPHRASE_ALG
    let kdfContextLength :=
      themis_scell_pbkdf2_context_size THEMIS_AUTH_SYM_PBKDF2_SALT_LENGTH
    match env.rand THEMIS_AUTH_SYM_PBKDF2_SALT_LENGTH with
    | none =>
      { status := .fail
        authToken := none, authTokenLength := authTokenCap
        encryptedMessage := none, encryptedMessageLength := encryptedMessageCap
        ivFinal := wipeBuf (List.replicate THEMIS_AUTH_SYM_IV_LENGTH 0)
        saltFinal := wipeBuf (List.replicate THEMIS_AUTH_SYM_PBKDF2_SALT_LENGTH 0)
        tagFinal := wipeBuf (List.replicate THEMIS_AUTH_SYM_AUTH_TAG_LENGTH 0)
        keyFinal := wipeBuf (List.replicate (THEMIS_AUTH_SYM_KEY_LENGTH / 8) 0)
        wiped := true, trace := [.rand] }
    | some saltBytes =>
      let saltBuf := bufWrite THEMIS_AUTH_SYM_PBKDF2_SALT_LENGTH saltBytes
      match env.pbkdf2 passphrase saltBuf THEMIS_AUTH_SYM_PBKDF2_ITERATIONS
          (THEMIS_AUTH_SYM_KEY_LENGTH / 8) with
      | none =>
        { status := .fail
          authToken := none, authTokenLength := authTokenCap
          encryptedMessage := none, encryptedMessageLength := encryptedMessageCap
          ivFinal := wipeBuf (List.replicate THEMIS_AUTH_SYM_IV_LENGTH 0)
          saltFinal := wipeBuf saltBuf
          tagFinal := wipeBuf (List.replicate THEMIS_AUTH_SYM_AUTH_TAG_LENGTH 0)
          keyFinal := wipeBuf (List.replicate (THEMIS_AUTH_SYM_KEY_LENGTH / 8) 0)
          wiped := true, trace := [.rand, .kdf] }
      | some keyBytes =>
        let keyBuf := bufWrite (THEMIS_AUTH_SYM_KEY_LENGTH / 8) keyBytes
        match env.rand THEMIS_AUTH_SYM_IV_LENGTH with
        | none =>
          { status := .fail
            authToken := none, authTokenLength := authTokenCap
            encryptedMessage := none, encryptedMessageLength := encryptedMessageCap
            ivFinal := wipeBuf (List.replicate THEMIS_AUTH_SYM_IV_LENGTH 0)
            saltFinal := wipeBuf saltBuf
            tagFinal := wipeBuf (List.replicate THEMIS_AUTH_SYM_AUTH_TAG_LENGTH 0)
            keyFinal := wipeBuf keyBuf
            wiped := true, trace := [.rand, .kdf, .rand] }
        | some ivBytes =>
          let ivBuf := bufWrite THEMIS_AUTH_SYM_IV_LENGTH ivBytes
          -- "We are doing KDF ourselves, ask Soter to not interfere"
          match env.aeadEnc (soter_alg_without_kdf hdrAlg) keyBuf ivBuf
              userContext message with
          | none =>
            { status := .fail
              authToken := none, authTokenLength := authTokenCap
              encryptedMessage := none, encryptedMessageLength := encryptedMessageCap
              ivFinal := wipeBuf ivBuf
              saltFinal := wipeBuf saltBuf
              tagFinal := wipeBuf (List.replicate THEMIS_AUTH_SYM_AUTH_TAG_LENGTH 0)
              keyFinal := wipeBuf keyBuf
              wiped := true, trace := [.rand, .kdf, .rand, .aeadEnc] }
          | some (ct, tag) =>
            let tagBuf := bufWrite THEMIS_AUTH_SYM_AUTH_TAG_LENGTH tag
            -- AEAD sanity check: reported tag length vs header tag length
            if tag.length ≠ THEMIS_AUTH_SYM_AUTH_TAG_LENGTH then
              { status := .fail
                authToken := none, authTokenLength := authTokenCap
                encryptedMessage := some ct, encryptedMessageLength := ct.length
                ivFinal := wipeBuf ivBuf
                saltFinal := wipeBuf saltBuf
                tagFinal := wipeBuf tagBuf
                keyFinal := wipeBuf keyBuf
                wiped := true, trace := [.rand, .kdf, .rand, .aeadEnc] }
            else
              let hdrSize := themis_scell_auth_token_passphrase_min_size +
                ivBuf.length + tagBuf.length + kdfContextLength
              if authTokenCap < hdrSize then
                { status := .bufferTooSmall
                  authToken := none, authTokenLength := authTokenCap
                  encryptedMessage := some ct, encryptedMessageLength := ct.length
                  ivFinal := wipeBuf ivBuf
                  saltFinal := wipeBuf saltBuf
                  tagFinal := wipeBuf tagBuf
                  keyFinal := wipeBuf keyBuf
                  wiped := true, trace := [.rand, .kdf, .rand, .aeadEnc] }
              else
                let kdfBytes := pbkdf2ContextBytes
                  THEMIS_AUTH_SYM_PBKDF2_ITERATIONS saltBuf
                { status := .success
                  authToken := some (authTokenBytes hdrAlg ivBuf tagBuf
                    (message.length % 4294967296) kdfBytes)
                  authTokenLength := hdrSize
                  encryptedMessage := some ct
                  encryptedMessageLength := message.length
                  ivFinal := wipeBuf ivBuf
                  saltFinal := wipeBuf saltBuf
                  tagFinal := wipeBuf tagBuf
                  keyFinal := wipeBuf keyBuf
                  wiped := true, trace := [.rand, .kdf, .rand, .aeadEnc] }

/-- Public encrypt entry point
(`themis_auth_sym_encrypt_message_with_passphrase`), translated from
the C source.  `userContext = none` models a NULL context pointer (with
length 0); `authTokenNull` / `encryptedMessageNull` model NULL output
buffer pointers.  The two out-length pointers are modelled as present
(a NULL out-length pointer is rejected by `THEMIS_CHECK_PARAM` with
invalid-parameter, before anything else happens). -/
def themis_auth_sym_encrypt_message_with_passphrase (env : Env)
    (passphrase message : List Nat) (userContext : Option (List Nat))
    (_authTokenNull : Bool) (authTokenCap : Nat)
    (encryptedMessageNull : Bool) (encryptedMessageCap : Nat) : EncryptResult :=
  let invalid : EncryptResult :=
    { status := .invalidParameter
      authToken := none, authTokenLength := authTokenCap
      encryptedMessage := none, encryptedMessageLength := encryptedMessageCap
      ivFinal := List.replicate THEMIS_AUTH_SYM_IV_LENGTH 0
      saltFinal := List.replicate THEMIS_AUTH_SYM_PBKDF2_SALT_LENGTH 0
      tagFinal := List.replicate THEMIS_AUTH_SYM_AUTH_TAG_LENGTH 0
      keyFinal := List.replicate (THEMIS_AUTH_SYM_KEY_LENGTH / 8) 0
      wiped := false, trace := [] }
  if passphrase.length = 0 then invalid
  else if message.length = 0 then invalid
  else if userContext = some [] then invalid
  else
    -- The source guard is (!auth_token_length || !encrypted_message || ...);
    -- auth_token_length was just checked non-NULL, so that disjunct is False.
    -- Note: the auth_token buffer pointer itself is never null-checked.
    if False ∨ encryptedMessageNull = true ∨
        authTokenCap < DEFAULT_AUTH_TOKEN_SIZE ∨
        encryptedMessageCap < message.length then
      { status := .bufferTooSmall
        authToken := none, authTokenLength := DEFAULT_AUTH_TOKEN_SIZE
        encryptedMessage := none, encryptedMessageLength := message.length
        ivFinal := List.replicate THEMIS_AUTH_SYM_IV_LENGTH 0
        saltFinal := List.replicate THEMIS_AUTH_SYM_PBKDF2_SALT_LENGTH 0
        tagFinal := List.replicate THEMIS_AUTH_SYM_AUTH_TAG_LENGTH 0
        keyFinal := List.replicate (THEMIS_AUTH_SYM_KEY_LENGTH / 8) 0
        wiped := false, trace := [] }
    else
      themis_auth_sym_encrypt_message_with_passphrase_ env passphrase message
        (userContext.getD []) authTokenCap encryptedMessageCap

/-- Result of the decrypt pipeline: status, the plaintext output with
its out-length value, the final contents of the derived-key stack
buffer, whether the wipe block ran, and the external-call trace. -/
structure DecryptResult where
  status : ThemisStatus
  message : Option (List Nat)
  messageLength : Nat
  keyFinal : List Nat
  wiped : Bool
  trace : List ExtCall
  deriving DecidableEq, Repr

/-- Inner decrypt pipeline
(`themis_auth_sym_decrypt_message_with_passphrase_`), translated from
the C source.  `messageCap` is the value behind `message_length` on
entry. -/
def themis_auth_sym_decrypt_message_with_passphrase_ (env : Env)
    (passphrase userContext authToken encryptedMessage : List Nat)
    (messageCap : Nat) : DecryptResult :=
  -- derived_key is a zero-initialized stack buffer of the maximum size
  let keyZero : List Nat := List.replicate (THEMIS_AUTH_SYM_MAX_KEY_LENGTH / 8) 0
  match themis_read_scell_auth_token_passphrase authToken with
  | none =>
    -- early return before the wipe block (corrupted-token from the parser)
    { status := .corruptedToken, message := none, messageLength := messageCap
      keyFinal := keyZero, wiped := false, trace := [] }
  | some hdr =>
    -- check that message length is consistent with header
    if hdr.messageLength ≠ encryptedMessage.length then
      { status := .fail, message := none, messageLength := messageCap
        keyFinal := keyZero, wiped := false, trace := [] }
    else
    -- the KDF selector must be PBKDF2; NOKDF (and anything else) is rejected
    if hdr.alg &&& SOTER_SYM_KDF_MASK ≠ SOTER_SYM_PBKDF2 then
      { status := .fail, message := none, messageLength := messageCap
        keyFinal := keyZero, wiped := false, trace := [] }
    else
    let derivedKeyLength := soter_alg_key_length hdr.alg
    if ¬(derivedKeyLength = SOTER_SYM_256_KEY_LENGTH / 8 ∨
         derivedKeyLength = SOTER_SYM_192_KEY_LENGTH / 8 ∨
         derivedKeyLength = SOTER_SYM_128_KEY_LENGTH / 8) then
      { status := .fail, message := none, messageLength := messageCap
        keyFinal := keyZero, wiped := false, trace := [] }
    else
    if ¬ soter_alg_reserved_bits_valid hdr.alg then
      { status := .fail, message := none, messageLength := messageCap
        keyFinal := keyZero, wiped := false, trace := [] }
    else
    match themis_read_scell_pbkdf2_context hdr.kdfContext with
    | none =>
      { status := .corruptedToken, message := none, messageLength := messageCap
        keyFinal := keyZero, wiped := false, trace := [] }
    | some kdf =>
      match env.pbkdf2 passphrase kdf.salt kdf.iterationCount derivedKeyLength with
      | none =>
        { status := .fail, message := none, messageLength := messageCap
          keyFinal := wipeBuf keyZero, wiped := true, trace := [.kdf] }
      | some keyBytes =>
        let keyBuf := bufWrite (THEMIS_AUTH_SYM_MAX_KEY_LENGTH / 8) keyBytes
        -- only the first derivedKeyLength bytes of the buffer are the key
        match env.aeadDec (soter_alg_without_kdf hdr.alg)
            (keyBuf.take derivedKeyLength) hdr.iv userContext
            encryptedMessage hdr.authTag with
        | none =>
          -- the AEAD failed; message_length untouched; the following
          -- sanity check can only keep or set res = THEMIS_FAIL
          { status := .fail, message := none, messageLength := messageCap
            keyFinal := wipeBuf keyBuf, wiped := true, trace := [.kdf, .aeadDec] }
        | some plaintext =>
          -- sanity check of resulting message length
          if plaintext.length ≠ encryptedMessage.length then
            { status := .fail, message := some plaintext
              messageLength := plaintext.length
              keyFinal := wipeBuf keyBuf, wiped := true, trace := [.kdf, .aeadDec] }
          else
            { status := .success, message := some plaintext
              messageLength := plaintext.length
              keyFinal := wipeBuf keyBuf, wiped := true, trace := [.kdf, .aeadDec] }

/-- Public decrypt entry point
(`themis_auth_sym_decrypt_message_with_passphrase`), translated from
the C source.  `userContext = none` and `encryptedMessage = none` model
NULL pointers (with length 0); `messageNull` models a NULL plaintext
output buffer. -/
def themis_auth_sym_decrypt_message_with_passphrase (env : Env)
    (passphrase : List Nat) (userContext : Option (List Nat))
    (authToken : List Nat) (encryptedMessage : Option (List Nat))
    (messageNull : Bool) (messageCap : Nat) : DecryptResult :=
  let keyZero : List Nat := List.replicate (THEMIS_AUTH_SYM_MAX_KEY_LENGTH / 8) 0
  let invalid : DecryptResult :=
    { status := .invalidParameter, message := none, messageLength := messageCap
      keyFinal := keyZero, wiped := false, trace := [] }
  if passphrase.length = 0 then invalid
  else if userContext = some [] then invalid
  else if authToken.length = 0 then invalid
  else
    -- a quick guess without parsing the message too deeply
    match themis_scell_auth_token_message_size authToken with
    | none =>
      { status := .corruptedToken, message := none, messageLength := messageCap
        keyFinal := keyZero, wiped := false, trace := [] }
    | some expectedMessageLength =>
      if messageNull = true ∨ messageCap < expectedMessageLength then
        { status := .bufferTooSmall, message := none
          messageLength := expectedMessageLength
          keyFinal := keyZero, wiped := false, trace := [] }
      else
        -- encrypted_message may be omitted only when querying the size
        match encryptedMessage with
        | none => invalid
        | some ct =>
          if ct.length = 0 then invalid
          else
            themis_auth_sym_decrypt_message_with_passphrase_ env passphrase
              (userContext.getD []) authToken ct messageCap

/-- A concrete well-behaved collaborator environment used for witnesses:
CSPRNG returns all-1 bytes, PBKDF2 returns all-2 bytes, the AEAD is the
identity cipher with an all-3 16-byte tag. -/
def testEnv : Env where
  rand n := some (List.replicate n 1)
  pbkdf2 _ _ _ kl := some (List.replicate kl 2)
  aeadEnc _ _ _ _ msg := some (msg, List.replicate 16 3)
  aeadDec _ _ _ _ ct _ := some ct

/-- A token whose algorithm field sets reserved bit 12 but is otherwise the
default algorithm, with well-formed framing. -/
def c3Token : List Nat :=
  authTokenBytes 0x41011100 (List.replicate 12 1) (List.replicate 16 3) 1
    (pbkdf2ContextBytes 200000 (List.replicate 16 1))

/-- A collaborator environment whose AEAD reports a ciphertext one byte
longer than the message (tag length still correct). -/
def envBadCt : Env where
  rand n := some (List.replicate n 1)
  pbkdf2 _ _ _ kl := some (List.replicate kl 2)
  aeadEnc _ _ _ _ msg := some (msg ++ [0], List.replicate 16 3)
  aeadDec _ _ _ _ ct _ := some ct

/-- A collaborator environment whose AEAD reports a 1-byte tag. -/
def envBadTag : Env where
  rand n := some (List.replicate n 1)
  pbkdf2 _ _ _ kl := some (List.replicate kl 2)
  aeadEnc _ _ _ _ msg := some (msg, [3])
  aeadDec _ _ _ _ ct _ := some ct

/-- A well-framed token whose algorithm field carries the no-KDF selector. -/
def c8Token : List Nat :=
  authTokenBytes 0x40010100 (List.replicate 12 1) (List.replicate 16 3) 1
    (pbkdf2ContextBytes 200000 (List.replicate 16 1))

/-- A well-framed token declaring message length zero. -/
def c10Token : List Nat :=
  authTokenBytes 0x41010100 (List.replicate 12 1) (List.replicate 16 3) 0
    (pbkdf2ContextBytes 200000 (List.replicate 16 1))

theorem bufWrite_length (n : Nat) (bs : List Nat) : (bufWrite n bs).length = n := by
  simp [bufWrite]
  omega

theorem bufWrite_eq {n : Nat} {bs : List Nat} (h : bs.length = n) : bufWrite n bs = bs := by
  simp [bufWrite, h, List.take_of_length_le (Nat.le_of_eq h)]

theorem wipeBuf_bufWrite (n : Nat) (bs : List Nat) :
    wipeBuf (bufWrite n bs) = List.replicate n 0 := by
  simp [wipeBuf, bufWrite_length]

theorem u32le_length (x : Nat) : (u32le x).length = 4 := by simp [u32le]

theorem readU32At_u32le (x : Nat) (l : List Nat) :
    readU32At (u32le x ++ l) 0 = x % 4294967296 := by
  simp only [u32le, List.cons_append, List.nil_append, readU32At, List.drop]
  omega

theorem drop_u32le_add (x : Nat) (l : List Nat) (n : Nat) :
    (u32le x ++ l).drop (4 + n) = l.drop n := by
  simp only [u32le, List.cons_append, List.nil_append]
  rw [show 4 + n = n + 1 + 1 + 1 + 1 from by omega]
  simp [List.drop_succ_cons]

theorem readU32At_u32le_add (x : Nat) (l : List Nat) (n : Nat) :
    readU32At (u32le x ++ l) (4 + n) = readU32At l n := by
  simp only [readU32At, drop_u32le_add]

theorem drop_env5 (a b c d e : Nat) (l : List Nat) (n : Nat) :
    (u32le a ++ (u32le b ++ (u32le c ++ (u32le d ++ (u32le e ++ l))))).drop (20 + n)
      = l.drop n := by
  rw [show 20 + n = 4 + (4 + (4 + (4 + (4 + n)))) from by omega]
  rw [drop_u32le_add, drop_u32le_add, drop_u32le_add, drop_u32le_add, drop_u32le_add]

theorem authTokenBytes_length (alg : Nat) (iv tag : List Nat) (m : Nat)
    (kdfBytes : List Nat) :
    (authTokenBytes alg iv tag m kdfBytes).length
      = 20 + (iv.length + (tag.length + kdfBytes.length)) := by
  simp [authTokenBytes, u32le_length]
  omega

theorem read_authTokenBytes (alg : Nat) (iv tag : List Nat) (m : Nat)
    (kdfBytes : List Nat)
    (halg : alg < 4294967296) (hiv : iv.length < 4294967296)
    (htag : tag.length < 4294967296) (hm : m < 4294967296)
    (hkdf : kdfBytes.length < 4294967296) :
    themis_read_scell_auth_token_passphrase (authTokenBytes alg iv tag m kdfBytes)
      = some { alg := alg, iv := iv, authTag := tag, messageLength := m,
               kdfContext := kdfBytes } := by
  have hlen := authTokenBytes_length alg iv tag m kdfBytes
  have h0 : readU32At (authTokenBytes alg iv tag m kdfBytes) 0 = alg := by
    simp only [authTokenBytes, List.append_assoc, readU32At_u32le,
      Nat.mod_eq_of_lt halg]
  have h4 : readU32At (authTokenBytes alg iv tag m kdfBytes) 4 = iv.length := by
    simp only [authTokenBytes, List.append_assoc]
    rw [show (4 : Nat) = 4 + 0 from rfl, readU32At_u32le_add, readU32At_u32le,
      Nat.mod_eq_of_lt hiv]
  have h8 : readU32At (authTokenBytes alg iv tag m kdfBytes) 8 = tag.length := by
    simp only [authTokenBytes, List.append_assoc]
    rw [show (8 : Nat) = 4 + (4 + 0) from rfl, readU32At_u32le_add,
      readU32At_u32le_add, readU32At_u32le, Nat.mod_eq_of_lt htag]
  have h12 : readU32At (authTokenBytes alg iv tag m kdfBytes) 12 = m := by
    simp only [authTokenBytes, List.append_assoc]
    rw [show (12 : Nat) = 4 + (4 + (4 + 0)) from rfl, readU32At_u32le_add,
      readU32At_u32le_add, readU32At_u32le_add, readU32At_u32le,
      Nat.mod_eq_of_lt hm]
  have h16 : readU32At (authTokenBytes alg iv tag m kdfBytes) 16 = kdfBytes.length := by
    simp only [authTokenBytes, List.append_assoc]
    rw [show (16 : Nat) = 4 + (4 + (4 + (4 + 0))) from rfl, readU32At_u32le_add,
      readU32At_u32le_add, readU32At_u32le_add, readU32At_u32le_add,
      readU32At_u32le, Nat.mod_eq_of_lt hkdf]
  have hd20 : (authTokenBytes alg iv tag m kdfBytes).drop 20 = iv ++ (tag ++ kdfBytes) := by
    simp only [authTokenBytes, List.append_assoc]
    rw [show (20 : Nat) = 20 + 0 from rfl, drop_env5]
    rfl
  have hdiv : (authTokenBytes alg iv tag m kdfBytes).drop (20 + iv.length)
      = tag ++ kdfBytes := by
    simp only [authTokenBytes, List.append_assoc]
    rw [drop_env5, List.drop_left]
  have hdtag : (authTokenBytes alg iv tag m kdfBytes).drop (20 + (iv.length + tag.length))
      = kdfBytes := by
    simp only [authTokenBytes, List.append_assoc]
    rw [drop_env5]
    rw [show iv.length + tag.length = (iv ++ tag).length from by simp]
    rw [← List.append_assoc, List.drop_left]
  simp only [themis_read_scell_auth_token_passphrase,
    themis_scell_auth_token_passphrase_min_size, h4, h8, h16, hlen]
  rw [if_neg (by omega), if_pos (by omega)]
  simp only [h0, h12, hd20, hdiv, Option.some.injEq]
  rw [show 20 + iv.length + tag.length = 20 + (iv.length + tag.length) from by omega,
    hdtag, List.take_left, List.take_left]

theorem message_size_authTokenBytes (alg : Nat) (iv tag : List Nat) (m : Nat)
    (kdfBytes : List Nat) (hm : m < 4294967296) :
    themis_scell_auth_token_message_size (authTokenBytes alg iv tag m kdfBytes)
      = some m := by
  have h12 : readU32At (authTokenBytes alg iv tag m kdfBytes) 12 = m := by
    simp only [authTokenBytes, List.append_assoc]
    rw [show (12 : Nat) = 4 + (4 + (4 + 0)) from rfl, readU32At_u32le_add,
      readU32At_u32le_add, readU32At_u32le_add, readU32At_u32le,
      Nat.mod_eq_of_lt hm]
  have hlen := authTokenBytes_length alg iv tag m kdfBytes
  simp only [themis_scell_auth_token_message_size,
    themis_scell_auth_token_passphrase_min_size, hlen, h12]
  rw [if_neg (by omega)]

theorem message_size_of_read {buf : List Nat} {hdr : AuthTokenPassphrase}
    (h : themis_read_scell_auth_token_passphrase buf = some hdr) :
    themis_scell_auth_token_message_size buf = some hdr.messageLength := by
  simp only [themis_read_scell_auth_token_passphrase] at h
  split at h
  · exact absurd h (by simp)
  · split at h
    · simp only [Option.some.injEq] at h
      simp only [themis_scell_auth_token_message_size]
      rw [if_neg (by omega)]
      rw [← h]
    · exact absurd h (by simp)

theorem read_pbkdf2ContextBytes (it : Nat) (salt : List Nat)
    (hit : it < 4294967296) (hs : salt.length < 4294967296) :
    themis_read_scell_pbkdf2_context (pbkdf2ContextBytes it salt)
      = some { iterationCount := it, salt := salt } := by
  have hlen : (pbkdf2ContextBytes it salt).length = 8 + salt.length := by
    simp [pbkdf2ContextBytes, u32le_length]
    omega
  have h0 : readU32At (pbkdf2ContextBytes it salt) 0 = it := by
    simp only [pbkdf2ContextBytes, List.append_assoc, readU32At_u32le,
      Nat.mod_eq_of_lt hit]
  have h4 : readU32At (pbkdf2ContextBytes it salt) 4 = salt.length := by
    simp only [pbkdf2ContextBytes, List.append_assoc]
    rw [show (4 : Nat) = 4 + 0 from rfl, readU32At_u32le_add, readU32At_u32le,
      Nat.mod_eq_of_lt hs]
  have hd8 : (pbkdf2ContextBytes it salt).drop 8 = salt := by
    simp only [pbkdf2ContextBytes, List.append_assoc]
    rw [show (8 : Nat) = 4 + (4 + 0) from rfl, drop_u32le_add, drop_u32le_add]
    rfl
  simp only [themis_read_scell_pbkdf2_context,
    themis_scell_pbkdf2_context_min_size, hlen, h0, h4, hd8]
  rw [if_neg (by omega)]
  simp

theorem encrypt_inner_success (env : Env) (pp msg ctx : List Nat)
    (salt key iv ct tag : List Nat) (tcap ecap : Nat)
    (hlen : msg.length ≤ UINT32_MAX)
    (h1 : env.rand THEMIS_AUTH_SYM_PBKDF2_SALT_LENGTH = some salt)
    (hs : salt.length = THEMIS_AUTH_SYM_PBKDF2_SALT_LENGTH)
    (h2 : env.pbkdf2 pp salt THEMIS_AUTH_SYM_PBKDF2_ITERATIONS
      (THEMIS_AUTH_SYM_KEY_LENGTH / 8) = some key)
    (hk : key.length = THEMIS_AUTH_SYM_KEY_LENGTH / 8)
    (h3 : env.rand THEMIS_AUTH_SYM_IV_LENGTH = some iv)
    (hi : iv.length = THEMIS_AUTH_SYM_IV_LENGTH)
    (h4 : env.aeadEnc (soter_alg_without_kdf THEMIS_AUTH_SYM_PASSPHRASE_ALG)
      key iv ctx msg = some (ct, tag))
    (ht : tag.length = THEMIS_AUTH_SYM_AUTH_TAG_LENGTH)
    (htc : ¬ tcap < 72) :
    themis_auth_sym_encrypt_message_with_passphrase_ env pp msg ctx tcap ecap =
      { status := .success
        authToken := some (authTokenBytes THEMIS_AUTH_SYM_PASSPHRASE_ALG iv tag
          msg.length (pbkdf2ContextBytes THEMIS_AUTH_SYM_PBKDF2_ITERATIONS salt))
        authTokenLength := 72
        encryptedMessage := some ct
        encryptedMessageLength := msg.length
        ivFinal := List.replicate 12 0
        saltFinal := List.replicate 16 0
        tagFinal := List.replicate 16 0
        keyFinal := List.replicate 32 0
        wiped := true
        trace := [.rand, .kdf, .rand, .aeadEnc] } := by
  have hmod : msg.length % 4294967296 = msg.length :=
    Nat.mod_eq_of_lt (by simp only [UINT32_MAX] at hlen; omega)
  simp only [themis_auth_sym_encrypt_message_with_passphrase_]
  rw [if_neg (by simp only [UINT32_MAX] at hlen ⊢; omega)]
  rw [h1]; simp only []; rw [bufWrite_eq hs]
  rw [h2]; simp only []; rw [bufWrite_eq hk]
  rw [h3]; simp only []; rw [bufWrite_eq hi]
  rw [h4]; simp only []; rw [bufWrite_eq ht]
  rw [if_neg (by simp [ht])]
  rw [if_neg (by
    simp only [hi, ht, themis_scell_auth_token_passphrase_min_size,
      THEMIS_AUTH_SYM_IV_LENGTH, THEMIS_AUTH_SYM_AUTH_TAG_LENGTH,
      themis_scell_pbkdf2_context_size, themis_scell_pbkdf2_context_min_size,
      THEMIS_AUTH_SYM_PBKDF2_SALT_LENGTH]
    omega)]
  simp only [hi, ht, hmod, themis_scell_auth_token_passphrase_min_size,
    THEMIS_AUTH_SYM_IV_LENGTH, THEMIS_AUTH_SYM_AUTH_TAG_LENGTH,
    themis_scell_pbkdf2_context_size, themis_scell_pbkdf2_context_min_size,
    THEMIS_AUTH_SYM_PBKDF2_SALT_LENGTH, THEMIS_AUTH_SYM_KEY_LENGTH]
  norm_num
  simp [wipeBuf, hs, hk, hi, ht, THEMIS_AUTH_SYM_IV_LENGTH,
    THEMIS_AUTH_SYM_PBKDF2_SALT_LENGTH, THEMIS_AUTH_SYM_AUTH_TAG_LENGTH,
    THEMIS_AUTH_SYM_KEY_LENGTH]

theorem decrypt_inner_roundtrip (env : Env) (pp ctx salt key iv ct tag msg : List Nat)
    (mcap : Nat)
    (hct : ct.length = msg.length)
    (hmsg32 : msg.length < 4294967296)
    (hs : salt.length = 16) (hi : iv.length = 12) (ht : tag.length = 16)
    (h2 : env.pbkdf2 pp salt 200000 32 = some key) (hk : key.length = 32)
    (h5 : env.aeadDec (soter_alg_without_kdf THEMIS_AUTH_SYM_PASSPHRASE_ALG)
      key iv ctx ct tag = some msg) :
    themis_auth_sym_decrypt_message_with_passphrase_ env pp ctx
      (authTokenBytes THEMIS_AUTH_SYM_PASSPHRASE_ALG iv tag msg.length
        (pbkdf2ContextBytes THEMIS_AUTH_SYM_PBKDF2_ITERATIONS salt)) ct mcap =
      { status := .success, message := some msg, messageLength := msg.length,
        keyFinal := List.replicate 32 0, wiped := true,
        trace := [.kdf, .aeadDec] } := by
  have hread := read_authTokenBytes THEMIS_AUTH_SYM_PASSPHRASE_ALG iv tag
    msg.length (pbkdf2ContextBytes THEMIS_AUTH_SYM_PBKDF2_ITERATIONS salt)
    (by decide) (by rw [hi]; decide) (by rw [ht]; decide) hmsg32
    (by simp [pbkdf2ContextBytes, u32le_length, hs])
  simp only [themis_auth_sym_decrypt_message_with_passphrase_]
  rw [hread]; simp only []
  rw [if_neg (by omega)]
  rw [if_neg (by decide)]
  rw [if_neg (by decide)]
  rw [if_neg (by decide)]
  rw [read_pbkdf2ContextBytes THEMIS_AUTH_SYM_PBKDF2_ITERATIONS salt (by decide)
    (by omega)]
  simp only []
  have hkl : soter_alg_key_length THEMIS_AUTH_SYM_PASSPHRASE_ALG = 32 := by decide
  rw [hkl]
  rw [show (THEMIS_AUTH_SYM_PBKDF2_ITERATIONS : Nat) = 200000 from rfl, h2]
  simp only []
  rw [show (THEMIS_AUTH_SYM_MAX_KEY_LENGTH / 8 : Nat) = 32 from rfl]
  rw [bufWrite_eq hk, ← hk, List.take_length, hk, h5]
  simp only []
  rw [if_neg (by omega)]
  simp [wipeBuf, bufWrite_length, hk]

/-- C1: for every non-empty passphrase, non-empty message of length at most
2^32-1 and absent-or-non-empty context, when the external CSPRNG, PBKDF2 and
AEAD collaborators behave as specified and the output buffers are adequate,
encrypt succeeds producing a token and a ciphertext, and decrypt applied to
the same passphrase, context, token and ciphertext succeeds and returns
exactly the original message. -/
theorem C1_roundtrip (env : Env) (pp msg : List Nat)
    (ctx : Option (List Nat)) (salt key iv ct tag : List Nat)
    (tcap ecap mcap : Nat)
    (hpp : pp ≠ []) (hmsg : msg ≠ []) (hmsglen : msg.length ≤ 4294967295)
    (hctx : ctx ≠ some [])
    (h1 : env.rand 16 = some salt) (hs : salt.length = 16)
    (h2 : env.pbkdf2 pp salt 200000 32 = some key) (hk : key.length = 32)
    (h3 : env.rand 12 = some iv) (hi : iv.length = 12)
    (h4 : env.aeadEnc (soter_alg_without_kdf THEMIS_AUTH_SYM_PASSPHRASE_ALG)
      key iv (ctx.getD []) msg = some (ct, tag))
    (hct : ct.length = msg.length) (ht : tag.length = 16)
    (h5 : env.aeadDec (soter_alg_without_kdf THEMIS_AUTH_SYM_PASSPHRASE_ALG)
      key iv (ctx.getD []) ct tag = some msg)
    (htc : DEFAULT_AUTH_TOKEN_SIZE ≤ tcap) (hec : msg.length ≤ ecap)
    (hmc : msg.length ≤ mcap) :
    ∃ token ctOut,
      (themis_auth_sym_encrypt_message_with_passphrase env pp msg ctx
        false tcap false ecap).status = .success ∧
      (themis_auth_sym_encrypt_message_with_passphrase env pp msg ctx
        false tcap false ecap).authToken = some token ∧
      (themis_auth_sym_encrypt_message_with_passphrase env pp msg ctx
        false tcap false ecap).encryptedMessage = some ctOut ∧
      (themis_auth_sym_decrypt_message_with_passphrase env pp ctx token
        (some ctOut) false mcap).status = .success ∧
      (themis_auth_sym_decrypt_message_with_passphrase env pp ctx token
        (some ctOut) false mcap).message = some msg := by
  have h72 : (DEFAULT_AUTH_TOKEN_SIZE : Nat) = 72 := rfl
  have henc := encrypt_inner_success env pp msg (ctx.getD []) salt key iv ct tag
    tcap ecap hmsglen h1 hs h2 hk h3 hi h4 ht (by omega)
  have hencw : themis_auth_sym_encrypt_message_with_passphrase env pp msg ctx
      false tcap false ecap =
      themis_auth_sym_encrypt_message_with_passphrase_ env pp msg (ctx.getD [])
        tcap ecap := by
    simp only [themis_auth_sym_encrypt_message_with_passphrase]
    rw [if_neg (by simp [hpp]), if_neg (by simp [hmsg]), if_neg hctx,
      if_neg (by simp [h72]; omega)]
  refine ⟨authTokenBytes THEMIS_AUTH_SYM_PASSPHRASE_ALG iv tag msg.length
    (pbkdf2ContextBytes THEMIS_AUTH_SYM_PBKDF2_ITERATIONS salt), ct, ?_, ?_, ?_, ?_, ?_⟩
  · rw [hencw, henc]
  · rw [hencw, henc]
  · rw [hencw, henc]
  all_goals {
    have htok : (authTokenBytes THEMIS_AUTH_SYM_PASSPHRASE_ALG iv tag msg.length
        (pbkdf2ContextBytes THEMIS_AUTH_SYM_PBKDF2_ITERATIONS salt)).length = 72 := by
      simp [authTokenBytes_length, hi, ht, pbkdf2ContextBytes, u32le_length, hs]
    have hdecw : themis_auth_sym_decrypt_message_with_passphrase env pp ctx
        (authTokenBytes THEMIS_AUTH_SYM_PASSPHRASE_ALG iv tag msg.length
          (pbkdf2ContextBytes THEMIS_AUTH_SYM_PBKDF2_ITERATIONS salt))
        (some ct) false mcap =
        themis_auth_sym_decrypt_message_with_passphrase_ env pp (ctx.getD [])
          (authTokenBytes THEMIS_AUTH_SYM_PASSPHRASE_ALG iv tag msg.length
            (pbkdf2ContextBytes THEMIS_AUTH_SYM_PBKDF2_ITERATIONS salt)) ct mcap := by
      simp only [themis_auth_sym_decrypt_message_with_passphrase]
      rw [if_neg (by simp [hpp]), if_neg hctx, if_neg (by simp [htok])]
      rw [message_size_authTokenBytes _ _ _ _ _ (by omega)]
      simp only []
      rw [if_neg (by simp; omega)]
      rw [if_neg (by simp [hct, List.length_eq_zero, hmsg])]
    rw [hdecw, decrypt_inner_roundtrip env pp (ctx.getD []) salt key iv ct tag msg
      mcap hct (by omega) hs hi ht h2 hk h5]
  }

/-- Witness for C1 at concrete inputs: passphrase [7], message [9], absent
context, under the well-behaved test environment. -/
theorem C1_roundtrip_witness :
    ∃ token ctOut,
      (themis_auth_sym_encrypt_message_with_passphrase testEnv [7] [9] none
        false 72 false 1).status = .success ∧
      (themis_auth_sym_encrypt_message_with_passphrase testEnv [7] [9] none
        false 72 false 1).authToken = some token ∧
      (themis_auth_sym_encrypt_message_with_passphrase testEnv [7] [9] none
        false 72 false 1).encryptedMessage = some ctOut ∧
      (themis_auth_sym_decrypt_message_with_passphrase testEnv [7] none token
        (some ctOut) false 5).status = .success ∧
      (themis_auth_sym_decrypt_message_with_passphrase testEnv [7] none token
        (some ctOut) false 5).message = some [9] :=
  C1_roundtrip testEnv [7] [9] none (List.replicate 16 1) (List.replicate 32 2)
    (List.replicate 12 1) [9] (List.replicate 16 3) 72 1 5
    (by decide) (by decide) (by decide) (by decide)
    (by rfl) (by decide) (by rfl) (by decide) (by rfl) (by decide) (by rfl)
    (by decide) (by decide) (by rfl) (by decide) (by decide) (by decide)

/-- C2 (code bug): when the auth-token output buffer is NULL but its
out-length is adequate, the encrypt entry point does not return
buffer-too-small; it performs the whole operation (the CSPRNG, KDF and AEAD
are all invoked, as the trace shows) because the source's negotiation guard
tests the already-validated length pointer auth_token_length instead of the
buffer pointer auth_token. -/
theorem C2_null_token_buffer_not_rejected :
    (themis_auth_sym_encrypt_message_with_passphrase testEnv [7] [9] none
      true 72 false 1).status = .success ∧
    (themis_auth_sym_encrypt_message_with_passphrase testEnv [7] [9] none
      true 72 false 1).trace = [.rand, .kdf, .rand, .aeadEnc] := by
  decide

/-- Counterexample to C3 as stated: a token that parses structurally but has
a nonzero reserved bit in its algorithm field is rejected by decrypt with the
generic-failure status (THEMIS_FAIL), not with the corrupted-token status
that structural parse failures return. -/
theorem C3_counterexample :
    (themis_auth_sym_decrypt_message_with_passphrase testEnv [7] none c3Token
      (some [9]) false 5).status = .fail ∧
    (themis_auth_sym_decrypt_message_with_passphrase testEnv [7] none c3Token
      (some [9]) false 5).status ≠ .corruptedToken := by
  decide

/-- C3 (amended): whenever the token parses structurally but the algorithm
field has nonzero reserved bits, or names an unsupported KDF, or declares a
key length outside 128/192/256 bits, or the header-declared message length
disagrees with the supplied ciphertext length, decrypt rejects the token
with the generic-failure status THEMIS_FAIL. -/
theorem C3_validation_failures_generic (env : Env) (pp ctx token ct : List Nat)
    (mcap : Nat) (hdr : AuthTokenPassphrase)
    (hread : themis_read_scell_auth_token_passphrase token = some hdr)
    (hbad : hdr.messageLength ≠ ct.length ∨
        hdr.alg &&& SOTER_SYM_KDF_MASK ≠ SOTER_SYM_PBKDF2 ∨
        ¬(soter_alg_key_length hdr.alg = SOTER_SYM_256_KEY_LENGTH / 8 ∨
          soter_alg_key_length hdr.alg = SOTER_SYM_192_KEY_LENGTH / 8 ∨
          soter_alg_key_length hdr.alg = SOTER_SYM_128_KEY_LENGTH / 8) ∨
        soter_alg_reserved_bits_valid hdr.alg = false) :
    (themis_auth_sym_decrypt_message_with_passphrase_ env pp ctx token ct
      mcap).status = .fail := by
  simp only [themis_auth_sym_decrypt_message_with_passphrase_]
  rw [hread]; simp only []
  by_cases hml : hdr.messageLength ≠ ct.length
  · rw [if_pos hml]
  · rw [if_neg hml]
    by_cases hkdf : hdr.alg &&& SOTER_SYM_KDF_MASK ≠ SOTER_SYM_PBKDF2
    · rw [if_pos hkdf]
    · rw [if_neg hkdf]
      by_cases hkl : ¬(soter_alg_key_length hdr.alg = SOTER_SYM_256_KEY_LENGTH / 8 ∨
          soter_alg_key_length hdr.alg = SOTER_SYM_192_KEY_LENGTH / 8 ∨
          soter_alg_key_length hdr.alg = SOTER_SYM_128_KEY_LENGTH / 8)
      · rw [if_pos hkl]
      · rw [if_neg hkl]
        have hres : soter_alg_reserved_bits_valid hdr.alg = false := by tauto
        rw [if_pos (by simp [hres])]

/-- Witness for the amended C3, applied at the reserved-bits token. -/
theorem C3_witness :
    (themis_auth_sym_decrypt_message_with_passphrase_ testEnv [7] [] c3Token [9]
      5).status = .fail :=
  C3_validation_failures_generic testEnv [7] [] c3Token [9] 5
    { alg := 0x41011100, iv := List.replicate 12 1, authTag := List.replicate 16 3,
      messageLength := 1,
      kdfContext := pbkdf2ContextBytes 200000 (List.replicate 16 1) }
    (by decide) (by decide)

/-- Counterexample to C4 as stated: under an AEAD whose reported ciphertext
is one byte longer than the message while the tag length is correct, the
encrypt pipeline succeeds; no check compares the produced ciphertext length
against the input message length. -/
theorem C4_counterexample :
    (themis_auth_sym_encrypt_message_with_passphrase_ envBadCt [7] [9] [] 72
      2).status = .success ∧
    (themis_auth_sym_encrypt_message_with_passphrase_ envBadCt [7] [9] [] 72
      2).encryptedMessage = some [9, 0] := by
  decide

/-- C4 (amended): the post-AEAD sanity check in the encrypt pipeline
compares the AEAD's reported authentication-tag length against the header's
tag length; on a mismatch encrypt fails with generic-failure. -/
theorem C4_tag_length_check (env : Env) (pp msg ctx salt key iv ct tag : List Nat)
    (tcap ecap : Nat) (hlen : msg.length ≤ 4294967295)
    (h1 : env.rand THEMIS_AUTH_SYM_PBKDF2_SALT_LENGTH = some salt)
    (h2 : env.pbkdf2 pp (bufWrite THEMIS_AUTH_SYM_PBKDF2_SALT_LENGTH salt)
      THEMIS_AUTH_SYM_PBKDF2_ITERATIONS (THEMIS_AUTH_SYM_KEY_LENGTH / 8) = some key)
    (h3 : env.rand THEMIS_AUTH_SYM_IV_LENGTH = some iv)
    (h4 : env.aeadEnc (soter_alg_without_kdf THEMIS_AUTH_SYM_PASSPHRASE_ALG)
      (bufWrite (THEMIS_AUTH_SYM_KEY_LENGTH / 8) key)
      (bufWrite THEMIS_AUTH_SYM_IV_LENGTH iv) ctx msg = some (ct, tag))
    (ht : tag.length ≠ THEMIS_AUTH_SYM_AUTH_TAG_LENGTH) :
    (themis_auth_sym_encrypt_message_with_passphrase_ env pp msg ctx tcap
      ecap).status = .fail := by
  simp only [themis_auth_sym_encrypt_message_with_passphrase_]
  rw [if_neg (by simp only [UINT32_MAX]; omega)]
  rw [h1]; simp only []
  rw [h2]; simp only []
  rw [h3]; simp only []
  rw [h4]; simp only []
  rw [if_pos ht]

/-- Witness for the amended C4, applied under an AEAD reporting a 1-byte
tag. -/
theorem C4_witness :
    (themis_auth_sym_encrypt_message_with_passphrase_ envBadTag [7] [9] [] 72
      2).status = .fail :=
  C4_tag_length_check envBadTag [7] [9] [] (List.replicate 16 1)
    (List.replicate 32 2) (List.replicate 12 1) [9] [3] 72 2
    (by decide) (by rfl) (by rfl) (by rfl) (by rfl) (by decide)

/-- Counterexample to C5 as stated: a message of length 2^32 together with
undersized output buffers makes encrypt return buffer-too-small, not
invalid-parameter, because the oversize check sits after the wrapper's
buffer-size negotiation. -/
theorem C5_counterexample :
    (themis_auth_sym_encrypt_message_with_passphrase testEnv [7]
      (List.replicate 4294967296 0) none false 0 false 0).status
      = .bufferTooSmall ∧
    (themis_auth_sym_encrypt_message_with_passphrase testEnv [7]
      (List.replicate 4294967296 0) none false 0 false 0).status
      ≠ .invalidParameter := by
  have hrep : (List.replicate 4294967296 (0 : Nat)).length = 4294967296 :=
    List.length_replicate 4294967296 0
  have h : themis_auth_sym_encrypt_message_with_passphrase testEnv [7]
      (List.replicate 4294967296 0) none false 0 false 0 =
      { status := .bufferTooSmall
        authToken := none, authTokenLength := DEFAULT_AUTH_TOKEN_SIZE
        encryptedMessage := none
        encryptedMessageLength := 4294967296
        ivFinal := List.replicate THEMIS_AUTH_SYM_IV_LENGTH 0
        saltFinal := List.replicate THEMIS_AUTH_SYM_PBKDF2_SALT_LENGTH 0
        tagFinal := List.replicate THEMIS_AUTH_SYM_AUTH_TAG_LENGTH 0
        keyFinal := List.replicate (THEMIS_AUTH_SYM_KEY_LENGTH / 8) 0
        wiped := false, trace := [] } := by
    simp only [themis_auth_sym_encrypt_message_with_passphrase]
    rw [if_neg (by decide), if_neg (by rw [hrep]; omega), if_neg (by decide),
      if_pos (Or.inr (Or.inr (Or.inl (by decide)))), hrep]
  rw [h]
  exact ⟨rfl, by decide⟩

/-- C5 (amended): a message longer than 2^32-1 bytes is rejected with
invalid-parameter provided the output buffers pass the wrapper's buffer-size
negotiation; the length check lives in the inner pipeline, after the
negotiation, so undersized buffers yield buffer-too-small instead. -/
theorem C5_oversize_message (env : Env) (pp msg : List Nat)
    (ctx : Option (List Nat)) (tcap ecap : Nat)
    (hpp : pp ≠ []) (hlen : msg.length > 4294967295) (hctx : ctx ≠ some [])
    (htc : DEFAULT_AUTH_TOKEN_SIZE ≤ tcap) (hec : msg.length ≤ ecap) :
    (themis_auth_sym_encrypt_message_with_passphrase env pp msg ctx false tcap
      false ecap).status = .invalidParameter := by
  have h72 : (DEFAULT_AUTH_TOKEN_SIZE : Nat) = 72 := rfl
  simp only [themis_auth_sym_encrypt_message_with_passphrase]
  rw [if_neg (by simp [hpp]), if_neg (by omega), if_neg hctx,
    if_neg (by simp [h72]; omega)]
  simp only [themis_auth_sym_encrypt_message_with_passphrase_]
  rw [if_pos (by simp only [UINT32_MAX]; omega)]

/-- Witness for the amended C5 at a message of length 2^32 with adequate
buffers. -/
theorem C5_witness :
    (themis_auth_sym_encrypt_message_with_passphrase testEnv [7]
      (List.replicate 4294967296 0) none false 72 false 4294967296).status
      = .invalidParameter :=
  C5_oversize_message testEnv [7] (List.replicate 4294967296 0) none 72
    4294967296 (by decide) (by rw [List.length_replicate]; omega) (by decide)
    (by decide) (by rw [List.length_replicate])

/-- Counterexample to C6 as stated: when the token fails structural parse,
the decrypt pipeline returns before the soter_wipe block, so the wipe block
is not reached on that exit path. -/
theorem C6_counterexample :
    (themis_auth_sym_decrypt_message_with_passphrase_ testEnv [7] [] [] [9]
      5).wiped = false ∧
    (themis_auth_sym_decrypt_message_with_passphrase_ testEnv [7] [] [] [9]
      5).status = .corruptedToken := by
  decide

/-- C6 (amended): on every exit path of the two pipelines, the transient
secret stack buffers (IV, salt, authentication tag and derived key for
encrypt; derived key for decrypt) hold all-zero bytes when the function
returns: paths that reach the wipe block are wiped there, and the early
rejections return the buffers still in their zero-initialized state. -/
theorem C6_buffers_zero_on_exit (env : Env) (pp msg ctx tok ct : List Nat)
    (tcap ecap mcap : Nat) :
    ((themis_auth_sym_encrypt_message_with_passphrase_ env pp msg ctx tcap
        ecap).ivFinal = List.replicate 12 0 ∧
     (themis_auth_sym_encrypt_message_with_passphrase_ env pp msg ctx tcap
        ecap).saltFinal = List.replicate 16 0 ∧
     (themis_auth_sym_encrypt_message_with_passphrase_ env pp msg ctx tcap
        ecap).tagFinal = List.replicate 16 0 ∧
     (themis_auth_sym_encrypt_message_with_passphrase_ env pp msg ctx tcap
        ecap).keyFinal = List.replicate 32 0) ∧
    (themis_auth_sym_decrypt_message_with_passphrase_ env pp ctx tok ct
      mcap).keyFinal = List.replicate 32 0 := by
  constructor
  · simp only [themis_auth_sym_encrypt_message_with_passphrase_]
    repeat' split
    all_goals refine ⟨?_, ?_, ?_, ?_⟩ <;>
      simp [wipeBuf, bufWrite_length, THEMIS_AUTH_SYM_IV_LENGTH,
        THEMIS_AUTH_SYM_PBKDF2_SALT_LENGTH, THEMIS_AUTH_SYM_AUTH_TAG_LENGTH,
        THEMIS_AUTH_SYM_KEY_LENGTH]
  · simp only [themis_auth_sym_decrypt_message_with_passphrase_]
    repeat' split
    all_goals simp [wipeBuf, bufWrite_length, THEMIS_AUTH_SYM_MAX_KEY_LENGTH]

/-- C7: for valid parameters, decrypt first shallow-parses only the declared
message length from the token; when the plaintext buffer is absent or its
out-length smaller than that length, it writes the declared length into the
out-length and returns buffer-too-small, performing no further parsing,
validation, key derivation or AEAD call: the entire result is fixed,
identical for every environment and every ciphertext argument, and the
external-call trace is empty. -/
theorem C7_probe_buffer_too_small (env : Env) (pp : List Nat)
    (ctx : Option (List Nat)) (token : List Nat) (ctOpt : Option (List Nat))
    (messageNull : Bool) (mcap expected : Nat)
    (hpp : pp ≠ []) (hctx : ctx ≠ some []) (htok : token ≠ [])
    (hsize : themis_scell_auth_token_message_size token = some expected)
    (hbuf : messageNull = true ∨ mcap < expected) :
    themis_auth_sym_decrypt_message_with_passphrase env pp ctx token ctOpt
      messageNull mcap =
      { status := .bufferTooSmall, message := none, messageLength := expected,
        keyFinal := List.replicate 32 0, wiped := false, trace := [] } := by
  simp only [themis_auth_sym_decrypt_message_with_passphrase]
  rw [if_neg (by simp [hpp]), if_neg hctx, if_neg (by simp [htok]), hsize]
  simp only []
  rw [if_pos hbuf]
  rfl

/-- Witness for C7 at a concrete 20-byte token declaring length 5, probed
with a zero-length plaintext buffer. -/
theorem C7_witness :
    themis_auth_sym_decrypt_message_with_passphrase testEnv [7] none
      (u32le 0 ++ u32le 0 ++ u32le 0 ++ u32le 5 ++ u32le 0) (some [9]) false 0 =
      { status := .bufferTooSmall, message := none, messageLength := 5,
        keyFinal := List.replicate 32 0, wiped := false, trace := [] } :=
  C7_probe_buffer_too_small testEnv [7] none
    (u32le 0 ++ u32le 0 ++ u32le 0 ++ u32le 5 ++ u32le 0) (some [9]) false 0 5
    (by decide) (by decide) (by decide) (by decide) (by decide)

/-- C8: a token whose algorithm field carries the no-KDF selector is
rejected by the decrypt pipeline with generic-failure, and neither the KDF
nor the AEAD is ever invoked (the external-call trace is empty), even if the
token parses. -/
theorem C8_nokdf_rejected (env : Env) (pp ctx token ct : List Nat) (mcap : Nat)
    (hdr : AuthTokenPassphrase)
    (hread : themis_read_scell_auth_token_passphrase token = some hdr)
    (hkdf : hdr.alg &&& SOTER_SYM_KDF_MASK = SOTER_SYM_NOKDF) :
    (themis_auth_sym_decrypt_message_with_passphrase_ env pp ctx token ct
      mcap).status = .fail ∧
    (themis_auth_sym_decrypt_message_with_passphrase_ env pp ctx token ct
      mcap).trace = [] := by
  simp only [themis_auth_sym_decrypt_message_with_passphrase_]
  rw [hread]; simp only []
  by_cases hml : hdr.messageLength ≠ ct.length
  · rw [if_pos hml]; exact ⟨rfl, rfl⟩
  · rw [if_neg hml, if_pos (by rw [hkdf]; decide)]; exact ⟨rfl, rfl⟩

/-- Witness for C8 at a syntactically valid token whose KDF selector is the
no-KDF value. -/
theorem C8_witness :
    (themis_auth_sym_decrypt_message_with_passphrase_ testEnv [7] [] c8Token [9]
      5).status = .fail ∧
    (themis_auth_sym_decrypt_message_with_passphrase_ testEnv [7] [] c8Token [9]
      5).trace = [] :=
  C8_nokdf_rejected testEnv [7] [] c8Token [9] 5
    { alg := 0x40010100, iv := List.replicate 12 1, authTag := List.replicate 16 3,
      messageLength := 1,
      kdfContext := pbkdf2ContextBytes 200000 (List.replicate 16 1) }
    (by decide) (by decide)

/-- C9: whenever the encrypt pipeline returns success, the token out-length
is exactly themis_scell_auth_token_passphrase_size of the written header,
the written token has exactly that many bytes, and the ciphertext out-length
is exactly the input message length. -/
theorem C9_success_sizes (env : Env) (pp msg ctx : List Nat) (tcap ecap : Nat)
    (hsucc : (themis_auth_sym_encrypt_message_with_passphrase_ env pp msg ctx
      tcap ecap).status = .success) :
    ∃ token hdr,
      (themis_auth_sym_encrypt_message_with_passphrase_ env pp msg ctx tcap
        ecap).authToken = some token ∧
      themis_read_scell_auth_token_passphrase token = some hdr ∧
      (themis_auth_sym_encrypt_message_with_passphrase_ env pp msg ctx tcap
        ecap).authTokenLength = themis_scell_auth_token_passphrase_size hdr ∧
      token.length = themis_scell_auth_token_passphrase_size hdr ∧
      (themis_auth_sym_encrypt_message_with_passphrase_ env pp msg ctx tcap
        ecap).encryptedMessageLength = msg.length := by
  by_cases hlen : msg.length > UINT32_MAX
  · simp only [themis_auth_sym_encrypt_message_with_passphrase_,
      if_pos hlen] at hsucc
    simp at hsucc
  rcases hr1 : env.rand THEMIS_AUTH_SYM_PBKDF2_SALT_LENGTH with _ | salt
  · simp only [themis_auth_sym_encrypt_message_with_passphrase_,
      if_neg hlen, hr1] at hsucc
    simp at hsucc
  rcases hr2 : env.pbkdf2 pp (bufWrite THEMIS_AUTH_SYM_PBKDF2_SALT_LENGTH salt)
      THEMIS_AUTH_SYM_PBKDF2_ITERATIONS (THEMIS_AUTH_SYM_KEY_LENGTH / 8)
      with _ | key
  · simp only [themis_auth_sym_encrypt_message_with_passphrase_,
      if_neg hlen, hr1, hr2] at hsucc
    simp at hsucc
  rcases hr3 : env.rand THEMIS_AUTH_SYM_IV_LENGTH with _ | iv
  · simp only [themis_auth_sym_encrypt_message_with_passphrase_,
      if_neg hlen, hr1, hr2, hr3] at hsucc
    simp at hsucc
  rcases hr4 : env.aeadEnc (soter_alg_without_kdf THEMIS_AUTH_SYM_PASSPHRASE_ALG)
      (bufWrite (THEMIS_AUTH_SYM_KEY_LENGTH / 8) key)
      (bufWrite THEMIS_AUTH_SYM_IV_LENGTH iv) ctx msg with _ | ctTag
  · simp only [themis_auth_sym_encrypt_message_with_passphrase_,
      if_neg hlen, hr1, hr2, hr3, hr4] at hsucc
    simp at hsucc
  rcases ctTag with ⟨ct, tag⟩
  by_cases htag : tag.length ≠ THEMIS_AUTH_SYM_AUTH_TAG_LENGTH
  · simp only [themis_auth_sym_encrypt_message_with_passphrase_,
      if_neg hlen, hr1, hr2, hr3, hr4, if_pos htag] at hsucc
    simp at hsucc
  by_cases hcap : tcap < themis_scell_auth_token_passphrase_min_size +
      (bufWrite THEMIS_AUTH_SYM_IV_LENGTH iv).length +
      (bufWrite THEMIS_AUTH_SYM_AUTH_TAG_LENGTH tag).length +
      themis_scell_pbkdf2_context_size THEMIS_AUTH_SYM_PBKDF2_SALT_LENGTH
  · simp only [themis_auth_sym_encrypt_message_with_passphrase_,
      if_neg hlen, hr1, hr2, hr3, hr4, if_neg htag, if_pos hcap] at hsucc
    simp at hsucc
  have hmod : msg.length % 4294967296 < 4294967296 := Nat.mod_lt _ (by omega)
  have hres : themis_auth_sym_encrypt_message_with_passphrase_ env pp msg ctx
      tcap ecap =
      { status := .success
        authToken := some (authTokenBytes THEMIS_AUTH_SYM_PASSPHRASE_ALG
          (bufWrite THEMIS_AUTH_SYM_IV_LENGTH iv)
          (bufWrite THEMIS_AUTH_SYM_AUTH_TAG_LENGTH tag)
          (msg.length % 4294967296)
          (pbkdf2ContextBytes THEMIS_AUTH_SYM_PBKDF2_ITERATIONS
            (bufWrite THEMIS_AUTH_SYM_PBKDF2_SALT_LENGTH salt)))
        authTokenLength := themis_scell_auth_token_passphrase_min_size +
          (bufWrite THEMIS_AUTH_SYM_IV_LENGTH iv).length +
          (bufWrite THEMIS_AUTH_SYM_AUTH_TAG_LENGTH tag).length +
          themis_scell_pbkdf2_context_size THEMIS_AUTH_SYM_PBKDF2_SALT_LENGTH
        encryptedMessage := some ct
        encryptedMessageLength := msg.length
        ivFinal := wipeBuf (bufWrite THEMIS_AUTH_SYM_IV_LENGTH iv)
        saltFinal := wipeBuf (bufWrite THEMIS_AUTH_SYM_PBKDF2_SALT_LENGTH salt)
        tagFinal := wipeBuf (bufWrite THEMIS_AUTH_SYM_AUTH_TAG_LENGTH tag)
        keyFinal := wipeBuf (bufWrite (THEMIS_AUTH_SYM_KEY_LENGTH / 8) key)
        wiped := true, trace := [.rand, .kdf, .rand, .aeadEnc] } := by
    simp only [themis_auth_sym_encrypt_message_with_passphrase_,
      if_neg hlen, hr1, hr2, hr3, hr4]
    rw [if_neg htag, if_neg hcap]
  have hkdflen : (pbkdf2ContextBytes THEMIS_AUTH_SYM_PBKDF2_ITERATIONS
      (bufWrite THEMIS_AUTH_SYM_PBKDF2_SALT_LENGTH salt)).length = 24 := by
    simp [pbkdf2ContextBytes, u32le_length, bufWrite_length,
      THEMIS_AUTH_SYM_PBKDF2_SALT_LENGTH]
  have hread := read_authTokenBytes THEMIS_AUTH_SYM_PASSPHRASE_ALG
    (bufWrite THEMIS_AUTH_SYM_IV_LENGTH iv)
    (bufWrite THEMIS_AUTH_SYM_AUTH_TAG_LENGTH tag)
    (msg.length % 4294967296)
    (pbkdf2ContextBytes THEMIS_AUTH_SYM_PBKDF2_ITERATIONS
      (bufWrite THEMIS_AUTH_SYM_PBKDF2_SALT_LENGTH salt))
    (by decide) (by rw [bufWrite_length]; decide) (by rw [bufWrite_length]; decide)
    hmod (by rw [hkdflen]; decide)
  refine ⟨_, _, ?_, hread, ?_, ?_, ?_⟩
  · rw [hres]
  · rw [hres]
    simp only [themis_scell_auth_token_passphrase_size, bufWrite_length,
      themis_scell_pbkdf2_context_size, themis_scell_pbkdf2_context_min_size,
      themis_scell_auth_token_passphrase_min_size,
      THEMIS_AUTH_SYM_PBKDF2_SALT_LENGTH, THEMIS_AUTH_SYM_IV_LENGTH,
      THEMIS_AUTH_SYM_AUTH_TAG_LENGTH] at hkdflen ⊢
    omega
  · rw [authTokenBytes_length]
    simp only [themis_scell_auth_token_passphrase_size,
      themis_scell_auth_token_passphrase_min_size]
    omega
  · rw [hres]

/-- Witness for C9 under the test environment, where encryption succeeds. -/
theorem C9_witness :
    ∃ token hdr,
      (themis_auth_sym_encrypt_message_with_passphrase_ testEnv [7] [9] [] 72
        2).authToken = some token ∧
      themis_read_scell_auth_token_passphrase token = some hdr ∧
      (themis_auth_sym_encrypt_message_with_passphrase_ testEnv [7] [9] [] 72
        2).authTokenLength = themis_scell_auth_token_passphrase_size hdr ∧
      token.length = themis_scell_auth_token_passphrase_size hdr ∧
      (themis_auth_sym_encrypt_message_with_passphrase_ testEnv [7] [9] [] 72
        2).encryptedMessageLength = [9].length :=
  C9_success_sizes testEnv [7] [9] [] 72 2 (by decide)

/-- C10: decrypt never returns success for a token whose header declares a
message length of zero: the entry point demands a non-empty ciphertext and
the pipeline demands that the ciphertext length equal the declared length. -/
theorem C10_zero_declared_never_succeeds (env : Env) (pp : List Nat)
    (ctx : Option (List Nat)) (token : List Nat) (ctOpt : Option (List Nat))
    (messageNull : Bool) (mcap : Nat) (hdr : AuthTokenPassphrase)
    (hread : themis_read_scell_auth_token_passphrase token = some hdr)
    (hzero : hdr.messageLength = 0) :
    (themis_auth_sym_decrypt_message_with_passphrase env pp ctx token ctOpt
      messageNull mcap).status ≠ .success := by
  simp only [themis_auth_sym_decrypt_message_with_passphrase]
  by_cases hpp : pp.length = 0
  · rw [if_pos hpp]; simp
  rw [if_neg hpp]
  by_cases hctx : ctx = some []
  · rw [if_pos hctx]; simp
  rw [if_neg hctx]
  by_cases htok : token.length = 0
  · rw [if_pos htok]; simp
  rw [if_neg htok]
  rw [message_size_of_read hread, hzero]
  simp only []
  by_cases hbuf : messageNull = true ∨ mcap < 0
  · rw [if_pos hbuf]; simp
  rw [if_neg hbuf]
  rcases ctOpt with _ | ct
  · simp
  simp only []
  by_cases hctlen : ct.length = 0
  · rw [if_pos hctlen]; simp
  rw [if_neg hctlen]
  simp only [themis_auth_sym_decrypt_message_with_passphrase_]
  rw [hread]
  simp only []
  rw [if_pos (by rw [hzero]; omega)]
  simp

/-- Witness for C10 at a token declaring message length zero. -/
theorem C10_witness :
    (themis_auth_sym_decrypt_message_with_passphrase testEnv [7] none c10Token
      (some [9]) false 5).status ≠ .success :=
  C10_zero_declared_never_succeeds testEnv [7] none c10Token (some [9]) false 5
    { alg := 0x41010100, iv := List.replicate 12 1, authTag := List.replicate 16 3,
      messageLength := 0,
      kdfContext := pbkdf2ContextBytes 200000 (List.replicate 16 1) }
    (by decide) rfl

end Themis
